import Mathlib

/-!
Verification development for the EC fan-control core of FanControlProject
(`fan_control.h` / `fan_control.cpp`, with `winring_wrapper.cpp` as the
port-I/O capability).

The C++ code is shallowly embedded as follows.

* I/O-port traffic is recorded as a trace of `PortOp` events; a register-level
  EC transaction (`EcTx`) expands to its exact port-level event sequence via
  `txPortOps`, mirroring `direct_ec_read` / `direct_ec_write`.
* The EC hardware is an oracle `EcMem : Nat -> Nat`; a read of 16-bit address
  `a` returns `mem (a % 2^16) % 256` (the wrapper's `ReadPort` returns a
  `uint8_t`).  Machine integers are `Nat` with explicit `% 2^8` / `% 2^16`.
* The controller object (`FanController` in C++) is a record of its members;
  HMODULE and function pointers are modelled as "non-null" booleans.  The C++
  member function `initialize` is embedded as `initController`, and
  `deinitialize` as `deinitController` (renamed; behaviour is unchanged), with
  the outcomes of the external acquisition steps (LoadLibraryA,
  GetProcAddress, LoadWinRing0, InitWinRing0) supplied by an `InitEnv` record.
* The percent derivation in `readStatus` is performed by the C++ code in IEEE
  binary64 arithmetic (`static_cast<int>((double)rpm / MAX * 100.0)`); it is
  embedded exactly by `fanPercentDouble`, built on `flPosP`, a
  round-to-nearest-even binary64 rounding function on positive rationals
  (exponents are unbounded, which agrees with binary64 on this computation's
  range: no overflow or subnormals occur for `rpm < 2^16`).
-/

/-- EC memory / port-read oracle: what the hardware returns for a read of a
given 16-bit EC address during the operation being modelled. -/
abbrev EcMem := Nat → Nat

/-- One I/O-port event: a byte written to a port, or a byte read from a port
(together with the value the read returned). -/
inductive PortOp where
  | write (port value : Nat)
  | read (port value : Nat)
deriving DecidableEq, Repr

/-- One register-level EC transaction: a single-byte EC write or a single-byte
EC read (with the byte it returned). -/
inductive EcTx where
  | writeReg (addr value : Nat)
  | readReg (addr value : Nat)
deriving DecidableEq, Repr

/-- `const uint16_t EC_ADDR_PORT = 0x4E;` -/
def EC_ADDR_PORT : Nat := 0x4E

/-- `const uint16_t EC_DATA_PORT = 0x4F;` -/
def EC_DATA_PORT : Nat := 0x4F

-- ITE_REGISTER_MAP constants used by readStatus / writeConfig.
def ECHIPID1 : Nat := 0x2000
def ECHIPID2 : Nat := 0x2001
def ECHIPVER : Nat := 0x2002
def FW_VER : Nat := 0xC2C7
def FAN_CUR_POINT : Nat := 0xC534
def FAN1_BASE : Nat := 0xC540
def FAN2_BASE : Nat := 0xC550
def FAN_ACC_BASE : Nat := 0xC560
def FAN_DEC_BASE : Nat := 0xC570
def CPU_TEMP : Nat := 0xC580
def CPU_TEMP_HYST : Nat := 0xC590
def GPU_TEMP : Nat := 0xC5A0
def GPU_TEMP_HYST : Nat := 0xC5B0
def VRM_TEMP : Nat := 0xC5C0
def VRM_TEMP_HYST : Nat := 0xC5D0
def FAN1_TARGET_DUTY : Nat := 0xC5FC - 0x18
def FAN2_TARGET_DUTY : Nat := 0xC5FD - 0x18
def FAN1_TARGET_CURVE_VAL : Nat := 0xC5FC
def FAN2_TARGET_CURVE_VAL : Nat := 0xC5FD
def FAN1_ACC_TIMER : Nat := 0xC3DA
def FAN2_ACC_TIMER : Nat := 0xC3DB
def FAN1_CUR_ACC : Nat := 0xC3DC
def FAN1_CUR_DEC : Nat := 0xC3DD
def FAN2_CUR_ACC : Nat := 0xC3DE
def FAN2_CUR_DEC : Nat := 0xC3DF
def FAN1_RPM_LSB : Nat := 0xC5E0
def FAN1_RPM_MSB : Nat := 0xC5E1
def FAN2_RPM_LSB : Nat := 0xC5E2
def FAN2_RPM_MSB : Nat := 0xC5E3

/-- Byte returned by the EC oracle for a read at (16-bit) address `addr`. -/
def ecByte (mem : EcMem) (addr : Nat) : Nat := mem (addr % 65536) % 256

/-- The three addressing phases shared by `direct_ec_read` and
`direct_ec_write`: select index register 0x11 and write the high address byte,
select index register 0x10 and write the low address byte, select data
register 0x12.  Each "select register" step is the pair
`write(EC_ADDR_PORT, 0x2E); write(EC_DATA_PORT, reg)` followed by
`write(EC_ADDR_PORT, 0x2F)` before the value transfer on `EC_DATA_PORT`.
`(addr >> 8) & 0xFF` is `addr / 256 % 256` and `addr & 0xFF` is `addr % 256`. -/
def addrPhases (addr : Nat) : List PortOp :=
  [ PortOp.write EC_ADDR_PORT 0x2E, PortOp.write EC_DATA_PORT 0x11,
    PortOp.write EC_ADDR_PORT 0x2F, PortOp.write EC_DATA_PORT (addr / 256 % 256),
    PortOp.write EC_ADDR_PORT 0x2E, PortOp.write EC_DATA_PORT 0x10,
    PortOp.write EC_ADDR_PORT 0x2F, PortOp.write EC_DATA_PORT (addr % 256),
    PortOp.write EC_ADDR_PORT 0x2E, PortOp.write EC_DATA_PORT 0x12,
    PortOp.write EC_ADDR_PORT 0x2F ]

/-- Port-level expansion of a register-level EC transaction, following
`FanController::direct_ec_read` / `FanController::direct_ec_write`. -/
def txPortOps : EcTx → List PortOp
  | EcTx.writeReg a v => addrPhases a ++ [PortOp.write EC_DATA_PORT v]
  | EcTx.readReg a v => addrPhases a ++ [PortOp.read EC_DATA_PORT v]

/-- Port-level trace of a register-level transaction list. -/
def portTrace : List EcTx → List PortOp
  | [] => []
  | t :: ts => txPortOps t ++ portTrace ts

/-- `FanController::direct_ec_read`: the exact port-event sequence of one
single-byte EC read, together with the byte it returns. -/
def direct_ec_read (mem : EcMem) (addr : Nat) : List PortOp × Nat :=
  (addrPhases addr ++ [PortOp.read EC_DATA_PORT (ecByte mem addr)], ecByte mem addr)

/-- Address of the `i`-th element of an array transaction:
`addr_base + static_cast<uint16_t>(i)` passed to a `uint16_t` parameter,
i.e. 16-bit wraparound. -/
def arrAddr (base i : Nat) : Nat := (base % 65536 + i % 65536) % 65536

/-- The loop body of `direct_ec_write_array`, element index accumulated. -/
def ecWriteArrayFrom (base : Nat) : Nat → List Nat → List EcTx
  | _, [] => []
  | i, d :: rest => EcTx.writeReg (arrAddr base i) d :: ecWriteArrayFrom base (i + 1) rest

/-- `FanController::direct_ec_write_array` as a register-level transaction
list (the early return on `data.empty()` is kept from the source). -/
def direct_ec_write_array (base : Nat) (data : List Nat) : List EcTx :=
  if data = [] then [] else ecWriteArrayFrom base 0 data

/-- The loop body of `direct_ec_read_array`: transactions and values read. -/
def ecReadArrayFrom (mem : EcMem) (base : Nat) : Nat → Nat → List EcTx × List Nat
  | _, 0 => ([], [])
  | i, n + 1 =>
    let v := ecByte mem (arrAddr base i)
    let rest := ecReadArrayFrom mem base (i + 1) n
    (EcTx.readReg (arrAddr base i) v :: rest.1, v :: rest.2)

/-- `FanController::direct_ec_read_array`. -/
def direct_ec_read_array (mem : EcMem) (base size : Nat) : List EcTx × List Nat :=
  ecReadArrayFrom mem base 0 size

/-- Round `n / d` to the nearest integer, ties to even (`d > 0` intended). -/
def rne (n d : Nat) : Nat :=
  if 2 * (n % d) < d then n / d
  else if d < 2 * (n % d) then n / d + 1
  else if (n / d) % 2 = 0 then n / d else n / d + 1

/-- Fuelled floor-log2 (`Nat.log2` with explicit fuel, so that kernel
reduction works; `fuel ≥ n` always suffices). -/
def log2fuel : Nat → Nat → Nat
  | 0, _ => 0
  | fuel + 1, n => if 2 ≤ n then log2fuel fuel (n / 2) + 1 else 0

/-- Floor of the base-2 logarithm of a positive natural number. -/
def log2N (n : Nat) : Nat := log2fuel n n

/-- Floor of the base-2 logarithm of the positive rational `n / d`
(valid whenever `n / d > 2 ^ (-64)`). -/
def floorLog2Q (n d : Nat) : Int := (log2N (n * 2 ^ 64 / d) : Int) - 64

/-- IEEE-754 binary64 round-to-nearest-even of the positive rational `n / d`
(unbounded exponent: correct for binary64 wherever no overflow or subnormal
arises, which covers every value in the percent computation's range).  The
result `(m, s)` denotes the rounded value `m * 2 ^ s`. -/
def flPosP (n d : Nat) : Nat × Int :=
  if floorLog2Q n d < 52 then
    (rne (n * 2 ^ (52 - floorLog2Q n d).toNat) d, floorLog2Q n d - 52)
  else
    (rne n (d * 2 ^ (floorLog2Q n d - 52).toNat), floorLog2Q n d - 52)

/-- The rational value denoted by a mantissa/scale pair. -/
def pairVal (p : Nat × Int) : ℚ := (p.1 : ℚ) * (2 : ℚ) ^ p.2

/-- The per-fan percent derivation of `FanController::readStatus`:
`(MAX > 0) ? static_cast<int>((static_cast<double>(rpm) / MAX) * 100.0) : 0`.
Both `rpm` and `MAX` convert to binary64 exactly (they are below `2 ^ 53`);
the division and the multiplication by `100.0` each round to nearest even,
and the cast to `int` truncates (floors, as the value is nonnegative).
`0.0 / MAX` is exactly `0.0`, handled by the `rpm = 0` branch.
`flTimes100` is the multiplication by `100.0` (exact product of the binary64
operand's mantissa, rounded again), `truncPair` the final truncation. -/
def flTimes100 (p : Nat × Int) : Nat × Int :=
  if p.2 < 0 then flPosP (100 * p.1) (2 ^ (-p.2).toNat)
  else flPosP (100 * p.1 * 2 ^ p.2.toNat) 1

/-- Truncation toward zero of the (nonnegative) value `m * 2 ^ s`. -/
def truncPair (p : Nat × Int) : Nat :=
  if p.2 < 0 then p.1 / 2 ^ (-p.2).toNat else p.1 * 2 ^ p.2.toNat

/-- The percent computation: see the comment above `flTimes100`. -/
def fanPercentDouble (mx rpm : Nat) : Nat :=
  if 0 < mx then
    if rpm = 0 then 0
    else truncPair (flTimes100 (flPosP rpm mx))
  else 0

/-- `static const uint16_t MAX_FAN1_RPM = 5200;` -/
def MAX_FAN1_RPM : Nat := 5200

/-- `static const uint16_t MAX_FAN2_RPM = 5000;` -/
def MAX_FAN2_RPM : Nat := 5000

/-- `struct FanStatusData` (fan_control.h): snapshot filled by `readStatus`.
`fan1_percent` / `fan2_percent` are `int` in C++ but always nonnegative. -/
structure FanStatusData where
  fan1_speed : Nat
  fan2_speed : Nat
  fan1_percent : Nat
  fan2_percent : Nat
  fan1_curve : List Nat
  fan2_curve : List Nat
  acc_time : List Nat
  dec_time : List Nat
  cpu_lower_temp : List Nat
  cpu_upper_temp : List Nat
  gpu_lower_temp : List Nat
  gpu_upper_temp : List Nat
  vrm_lower_temp : List Nat
  vrm_upper_temp : List Nat
  chip_id1 : Nat
  chip_id2 : Nat
  chip_ver : Nat
  fw_ver : Nat
  fan1_target_duty : Nat
  fan2_target_duty : Nat
  fan1_target_curve_val : Nat
  fan2_target_curve_val : Nat
  fan_cur_point : Nat
deriving DecidableEq, Repr

/-- `struct FanConfigData` (fan_control.h): the ten writable tables. -/
structure FanConfigData where
  fan1_curve : List Nat
  fan2_curve : List Nat
  acc_time : List Nat
  dec_time : List Nat
  cpu_lower_temp : List Nat
  cpu_upper_temp : List Nat
  gpu_lower_temp : List Nat
  gpu_upper_temp : List Nat
  vrm_lower_temp : List Nat
  vrm_upper_temp : List Nat
deriving DecidableEq, Repr

/-- The `FanConfigData()` default constructor: every table is `(10, 0)`,
ten zero entries. -/
def defaultFanConfigData : FanConfigData where
  fan1_curve := List.replicate 10 0
  fan2_curve := List.replicate 10 0
  acc_time := List.replicate 10 0
  dec_time := List.replicate 10 0
  cpu_lower_temp := List.replicate 10 0
  cpu_upper_temp := List.replicate 10 0
  gpu_lower_temp := List.replicate 10 0
  gpu_upper_temp := List.replicate 10 0
  vrm_lower_temp := List.replicate 10 0
  vrm_upper_temp := List.replicate 10 0

/-- The size validation at the top of `FanController::writeConfig` (negated:
`true` when every one of the ten tables has size exactly 10). -/
def sizesValid (cfg : FanConfigData) : Bool :=
  cfg.fan1_curve.length == 10 && cfg.fan2_curve.length == 10 &&
  cfg.acc_time.length == 10 && cfg.dec_time.length == 10 &&
  cfg.cpu_lower_temp.length == 10 && cfg.cpu_upper_temp.length == 10 &&
  cfg.gpu_lower_temp.length == 10 && cfg.gpu_upper_temp.length == 10 &&
  cfg.vrm_lower_temp.length == 10 && cfg.vrm_upper_temp.length == 10

/-- `class FanController` members.  The HMODULE and the six function pointers
are modelled by "is non-null" booleans. -/
structure FanController where
  hWinRing0Wrapper : Bool
  pLoadWinRing0 : Bool
  pInitWinRing0 : Bool
  pReadPort : Bool
  pWritePort : Bool
  pGetStatus : Bool
  pDeinitWinRing0 : Bool
  winring_init_ok : Bool
  lastError : String
deriving DecidableEq, Repr

/-- The `FanController()` constructor: null handle and pointers,
`winring_init_ok = false`, empty error string. -/
def defaultFanController : FanController where
  hWinRing0Wrapper := false
  pLoadWinRing0 := false
  pInitWinRing0 := false
  pReadPort := false
  pWritePort := false
  pGetStatus := false
  pDeinitWinRing0 := false
  winring_init_ok := false
  lastError := ""

/-- Outcomes of the external steps performed by `FanController::initialize`:
whether `LoadLibraryA` succeeds (and its `GetLastError` code otherwise),
which of the six `GetProcAddress` lookups return non-null, and whether the
wrapper's `LoadWinRing0()` / `InitWinRing0()` succeed (`GetStatus()` value). -/
structure InitEnv where
  loadLibraryOk : Bool
  loadLibraryErrCode : Nat
  procLoadOk : Bool
  procInitOk : Bool
  procReadOk : Bool
  procWriteOk : Bool
  procStatusOk : Bool
  procDeinitOk : Bool
  loadWinRing0Ok : Bool
  initWinRing0Ok : Bool
  driverStatus : Nat
deriving DecidableEq, Repr

/-- `FanController::initialize` (embedded as `initController`).  Returns the
new controller state, the boolean result, and the number of capability
acquisition attempts performed by this call (0 when the already-initialized
early return is taken, 1 when the LoadLibraryA / GetProcAddress /
LoadWinRing0 / InitWinRing0 sequence is entered). -/
def initController (env : InitEnv) (c : FanController) : FanController × Bool × Nat :=
  if c.winring_init_ok then (c, true, 0)
  else
    let c1 := { c with lastError := "" }
    if env.loadLibraryOk = false then
      -- hWinRing0Wrapper was assigned the null LoadLibraryA result
      ({ c1 with
          hWinRing0Wrapper := false
          lastError := "Could not load winring_wrapper.dll. Error code: " ++
            toString env.loadLibraryErrCode ++
            ". Ensure DLL and dependencies (WinRing0x64.dll, MinGW runtimes) are present." },
        false, 1)
    else
      let c2 := { c1 with
                  hWinRing0Wrapper := true
                  pLoadWinRing0 := env.procLoadOk
                  pInitWinRing0 := env.procInitOk
                  pReadPort := env.procReadOk
                  pWritePort := env.procWriteOk
                  pGetStatus := env.procStatusOk
                  pDeinitWinRing0 := env.procDeinitOk }
      if (c2.pLoadWinRing0 && c2.pInitWinRing0 && c2.pReadPort && c2.pWritePort &&
          c2.pGetStatus && c2.pDeinitWinRing0) = false then
        ({ c2 with
            lastError := "Could not get one or more function addresses from wrapper DLL."
            hWinRing0Wrapper := false }, false, 1)
      else if env.loadWinRing0Ok = false then
        ({ c2 with
            lastError := "LoadWinRing0() via wrapper failed."
            hWinRing0Wrapper := false }, false, 1)
      else if env.initWinRing0Ok = false then
        ({ c2 with
            lastError := "InitWinRing0() via wrapper failed. Status: " ++
              toString (if c2.pGetStatus then env.driverStatus else 0)
            hWinRing0Wrapper := false }, false, 1)
      else
        ({ c2 with winring_init_ok := true }, true, 1)

/-- `FanController::deinitialize` (embedded as `deinitController`): calls
`DeinitWinRing0` / `FreeLibrary` as applicable and resets the handle, the six
function pointers and `winring_init_ok`; `lastError` is not touched. -/
def deinitController (c : FanController) : FanController :=
  { c with
    hWinRing0Wrapper := false
    pLoadWinRing0 := false
    pInitWinRing0 := false
    pReadPort := false
    pWritePort := false
    pGetStatus := false
    pDeinitWinRing0 := false
    winring_init_ok := false }

/-- `FanController::isInitialized`. -/
def isInitializedCtl (c : FanController) : Bool := c.winring_init_ok

/-- `FanController::getLastError`. -/
def getLastErrorCtl (c : FanController) : String := c.lastError

/-- `FanController::readStatus`.  Returns the new controller state, the
register-level transaction trace this call issued (empty on the
not-initialized early return), and the filled `FanStatusData` on success.
Reads are issued in source order.  `fan?_speed` is
`(uint16_t(high) << 8) | low`. -/
def readStatus (mem : EcMem) (c : FanController) :
    FanController × List EcTx × Option FanStatusData :=
  if c.winring_init_ok = false then
    ({ c with lastError := "WinRing0 not initialized, cannot read status." }, [], none)
  else
    let c1 := { c with lastError := "" }
    let rd := fun (a : Nat) => EcTx.readReg a (ecByte mem a)
    let fan1_low := ecByte mem FAN1_RPM_LSB
    let fan1_high := ecByte mem FAN1_RPM_MSB
    let fan2_low := ecByte mem FAN2_RPM_LSB
    let fan2_high := ecByte mem FAN2_RPM_MSB
    let st : FanStatusData := {
      fan1_speed := fan1_high <<< 8 ||| fan1_low
      fan2_speed := fan2_high <<< 8 ||| fan2_low
      fan1_percent := fanPercentDouble MAX_FAN1_RPM (fan1_high <<< 8 ||| fan1_low)
      fan2_percent := fanPercentDouble MAX_FAN2_RPM (fan2_high <<< 8 ||| fan2_low)
      fan1_curve := (direct_ec_read_array mem FAN1_BASE 10).2
      fan2_curve := (direct_ec_read_array mem FAN2_BASE 10).2
      acc_time := (direct_ec_read_array mem FAN_ACC_BASE 10).2
      dec_time := (direct_ec_read_array mem FAN_DEC_BASE 10).2
      cpu_upper_temp := (direct_ec_read_array mem CPU_TEMP 10).2
      cpu_lower_temp := (direct_ec_read_array mem CPU_TEMP_HYST 10).2
      gpu_upper_temp := (direct_ec_read_array mem GPU_TEMP 10).2
      gpu_lower_temp := (direct_ec_read_array mem GPU_TEMP_HYST 10).2
      vrm_upper_temp := (direct_ec_read_array mem VRM_TEMP 10).2
      vrm_lower_temp := (direct_ec_read_array mem VRM_TEMP_HYST 10).2
      chip_id1 := ecByte mem ECHIPID1
      chip_id2 := ecByte mem ECHIPID2
      chip_ver := ecByte mem ECHIPVER
      fw_ver := ecByte mem FW_VER
      fan1_target_duty := ecByte mem FAN1_TARGET_DUTY
      fan2_target_duty := ecByte mem FAN2_TARGET_DUTY
      fan1_target_curve_val := ecByte mem FAN1_TARGET_CURVE_VAL
      fan2_target_curve_val := ecByte mem FAN2_TARGET_CURVE_VAL
      fan_cur_point := ecByte mem FAN_CUR_POINT }
    let txs : List EcTx :=
      [rd FAN1_RPM_LSB, rd FAN1_RPM_MSB, rd FAN2_RPM_LSB, rd FAN2_RPM_MSB] ++
      (direct_ec_read_array mem FAN1_BASE 10).1 ++
      (direct_ec_read_array mem FAN2_BASE 10).1 ++
      (direct_ec_read_array mem FAN_ACC_BASE 10).1 ++
      (direct_ec_read_array mem FAN_DEC_BASE 10).1 ++
      (direct_ec_read_array mem CPU_TEMP 10).1 ++
      (direct_ec_read_array mem CPU_TEMP_HYST 10).1 ++
      (direct_ec_read_array mem GPU_TEMP 10).1 ++
      (direct_ec_read_array mem GPU_TEMP_HYST 10).1 ++
      (direct_ec_read_array mem VRM_TEMP 10).1 ++
      (direct_ec_read_array mem VRM_TEMP_HYST 10).1 ++
      [rd ECHIPID1, rd ECHIPID2, rd ECHIPVER, rd FW_VER] ++
      [rd FAN1_TARGET_DUTY, rd FAN2_TARGET_DUTY,
       rd FAN1_TARGET_CURVE_VAL, rd FAN2_TARGET_CURVE_VAL, rd FAN_CUR_POINT]
    (c1, txs, some st)

/-- The ten table writes of `FanController::writeConfig`, in source order. -/
def wcArrayTxs (cfg : FanConfigData) : List EcTx :=
  direct_ec_write_array FAN1_BASE cfg.fan1_curve ++
  direct_ec_write_array FAN2_BASE cfg.fan2_curve ++
  direct_ec_write_array CPU_TEMP cfg.cpu_upper_temp ++
  direct_ec_write_array GPU_TEMP cfg.gpu_upper_temp ++
  direct_ec_write_array VRM_TEMP cfg.vrm_upper_temp ++
  direct_ec_write_array CPU_TEMP_HYST cfg.cpu_lower_temp ++
  direct_ec_write_array GPU_TEMP_HYST cfg.gpu_lower_temp ++
  direct_ec_write_array VRM_TEMP_HYST cfg.vrm_lower_temp ++
  direct_ec_write_array FAN_ACC_BASE cfg.acc_time ++
  direct_ec_write_array FAN_DEC_BASE cfg.dec_time

/-- `FanController::writeConfig`.  Returns the new controller state, the
register-level transaction trace this call issued, and the boolean result.
After the ten table writes it re-reads the per-fan "target curve value"
registers into the "target duty" registers, then reads `FAN_CUR_POINT` and,
when that index is in range, rewrites the matching acc/dec entries into the
live acc/dec registers; an out-of-range index records a warning in
`lastError` without failing the call. -/
def writeConfig (mem : EcMem) (c : FanController) (cfg : FanConfigData) :
    FanController × List EcTx × Bool :=
  if c.winring_init_ok = false then
    ({ c with lastError := "WinRing0 not initialized, cannot write config." }, [], false)
  else
    let c1 := { c with lastError := "" }
    if sizesValid cfg = false then
      ({ c1 with lastError := "Invalid configuration data: All arrays must have size 10." },
        [], false)
    else
      let fan1_curve_target := ecByte mem FAN1_TARGET_CURVE_VAL
      let fan2_curve_target := ecByte mem FAN2_TARGET_CURVE_VAL
      let idx := ecByte mem FAN_CUR_POINT
      let targetTxs : List EcTx :=
        [EcTx.readReg FAN1_TARGET_CURVE_VAL fan1_curve_target,
         EcTx.writeReg FAN1_TARGET_DUTY fan1_curve_target,
         EcTx.readReg FAN2_TARGET_CURVE_VAL fan2_curve_target,
         EcTx.writeReg FAN2_TARGET_DUTY fan2_curve_target,
         EcTx.readReg FAN_CUR_POINT idx]
      let accStep : FanController × List EcTx :=
        if idx < cfg.acc_time.length then
          (c1, [EcTx.writeReg FAN1_CUR_ACC (cfg.acc_time.getD idx 0),
                EcTx.writeReg FAN2_CUR_ACC (cfg.acc_time.getD idx 0)])
        else
          ({ c1 with lastError :=
              "Warning: Invalid ACC_time target index read from EC: " ++ toString idx }, [])
      let decStep : FanController × List EcTx :=
        if idx < cfg.dec_time.length then
          (accStep.1, [EcTx.writeReg FAN1_CUR_DEC (cfg.dec_time.getD idx 0),
                       EcTx.writeReg FAN2_CUR_DEC (cfg.dec_time.getD idx 0)])
        else
          ({ accStep.1 with lastError :=
              "Warning: Invalid DEC_time target index read from EC: " ++ toString idx }, [])
      (decStep.1, wcArrayTxs cfg ++ targetTxs ++ accStep.2 ++ decStep.2, true)

/-- Is this transaction a write to one of the four live acc/dec registers
(`FAN1_CUR_ACC`, `FAN1_CUR_DEC`, `FAN2_CUR_ACC`, `FAN2_CUR_DEC`)? -/
def isCurAccDecWrite : EcTx → Bool
  | EcTx.writeReg a _ =>
      a == FAN1_CUR_ACC || a == FAN1_CUR_DEC || a == FAN2_CUR_ACC || a == FAN2_CUR_DEC
  | EcTx.readReg _ _ => false

-- ------------------------------------------------------------------
-- Helper lemmas
-- ------------------------------------------------------------------

theorem arrAddr_eq (base i : Nat) (h : base + i < 65536) : arrAddr base i = base + i := by
  unfold arrAddr
  rw [Nat.mod_eq_of_lt (by omega : base < 65536), Nat.mod_eq_of_lt (by omega : i < 65536),
    Nat.mod_eq_of_lt h]

theorem ecWriteArrayFrom_eq (data : List Nat) : ∀ base i,
    ecWriteArrayFrom base i data =
      (List.range data.length).map
        (fun j => EcTx.writeReg (arrAddr base (i + j)) (data.getD j 0)) := by
  induction data with
  | nil => intro base i; simp [ecWriteArrayFrom]
  | cons d rest ih =>
    intro base i
    simp only [ecWriteArrayFrom, List.length_cons, List.range_succ_eq_map, List.map_cons,
      List.map_map, List.cons.injEq]
    refine ⟨?_, ?_⟩
    · simp
    · rw [ih base (i + 1)]
      apply List.map_congr_left
      intro j _
      simp only [Function.comp_apply, List.getD_cons_succ]
      have : i + 1 + j = i + (j + 1) := by omega
      rw [this]

theorem ecWriteArrayFrom_no_cur (base : Nat) (hb : 0xC3DF < base) :
    ∀ (data : List Nat) (i : Nat), base + i + data.length ≤ 65536 →
      (ecWriteArrayFrom base i data).all (fun t => !(isCurAccDecWrite t)) = true := by
  intro data
  induction data with
  | nil => intro i _; simp [ecWriteArrayFrom]
  | cons d rest ih =>
    intro i hle
    simp only [ecWriteArrayFrom, List.all_cons, Bool.and_eq_true]
    refine ⟨?_, ih (i + 1) (by simp at hle ⊢; omega)⟩
    have ha : arrAddr base i = base + i := arrAddr_eq base i (by simp at hle; omega)
    simp only [isCurAccDecWrite, ha, FAN1_CUR_ACC, FAN1_CUR_DEC, FAN2_CUR_ACC, FAN2_CUR_DEC]
    simp only [Bool.not_eq_true']
    simp only [Bool.or_eq_false_iff, beq_eq_false_iff_ne, ne_eq]
    omega

theorem direct_ec_write_array_no_cur (base : Nat) (data : List Nat)
    (hb : 0xC3DF < base) (hlen : base + data.length ≤ 65536) :
    (direct_ec_write_array base data).all (fun t => !(isCurAccDecWrite t)) = true := by
  unfold direct_ec_write_array
  split
  · rfl
  · exact ecWriteArrayFrom_no_cur base hb data 0 (by omega)

theorem wcArrayTxs_no_cur (cfg : FanConfigData) (h : sizesValid cfg = true) :
    (wcArrayTxs cfg).all (fun t => !(isCurAccDecWrite t)) = true := by
  simp only [sizesValid, Bool.and_eq_true, beq_iff_eq] at h
  obtain ⟨⟨⟨⟨⟨⟨⟨⟨⟨h1, h2⟩, h3⟩, h4⟩, h5⟩, h6⟩, h7⟩, h8⟩, h9⟩, h10⟩ := h
  simp only [wcArrayTxs, List.all_append, Bool.and_eq_true]
  refine ⟨⟨⟨⟨⟨⟨⟨⟨⟨?_, ?_⟩, ?_⟩, ?_⟩, ?_⟩, ?_⟩, ?_⟩, ?_⟩, ?_⟩, ?_⟩ <;>
    apply direct_ec_write_array_no_cur <;>
    simp [FAN1_BASE, FAN2_BASE, CPU_TEMP, GPU_TEMP, VRM_TEMP, CPU_TEMP_HYST, GPU_TEMP_HYST,
      VRM_TEMP_HYST, FAN_ACC_BASE, FAN_DEC_BASE, h1, h2, h3, h4, h5, h6, h7, h8, h9, h10]

-- ------------------------------------------------------------------
-- Rounding-error bounds for the binary64 percent model
-- ------------------------------------------------------------------

theorem rne_close (n d : Nat) (hd : 0 < d) :
    |(rne n d : ℚ) * d - n| * 2 ≤ d := by
  have hmod := Nat.div_add_mod n d
  have hrlt : n % d < d := Nat.mod_lt n hd
  have hq : (n : ℚ) = (d : ℚ) * ((n / d : Nat) : ℚ) + ((n % d : Nat) : ℚ) := by
    exact_mod_cast congrArg (Nat.cast : Nat → ℚ) hmod.symm
  have hR : (0 : ℚ) ≤ ((n % d : Nat) : ℚ) := by positivity
  have hRD : ((n % d : Nat) : ℚ) ≤ (d : ℚ) := by exact_mod_cast hrlt.le
  unfold rne
  split
  · rename_i hlt
    have h1 : ((n / d : Nat) : ℚ) * d - n = -((n % d : Nat) : ℚ) := by rw [hq]; ring
    rw [h1, abs_neg, abs_of_nonneg hR]
    have h2 : ((2 * (n % d) : Nat) : ℚ) ≤ ((d : Nat) : ℚ) := by exact_mod_cast hlt.le
    push_cast at h2
    linarith
  · split
    · rename_i hge hgt
      have h1 : (((n / d + 1 : Nat)) : ℚ) * d - n = (d : ℚ) - ((n % d : Nat) : ℚ) := by
        push_cast
        rw [hq]; ring
      rw [h1, abs_of_nonneg (by linarith)]
      have h2 : ((d : Nat) : ℚ) ≤ ((2 * (n % d) : Nat) : ℚ) := by exact_mod_cast hgt.le
      push_cast at h2
      linarith
    · split
      · rename_i hge hle heven
        have htie : (d : ℚ) = 2 * ((n % d : Nat) : ℚ) := by
          have hv : d = 2 * (n % d) := by omega
          exact_mod_cast hv
        have h1 : ((n / d : Nat) : ℚ) * d - n = -((n % d : Nat) : ℚ) := by rw [hq]; ring
        rw [h1, abs_neg, abs_of_nonneg hR]
        linarith
      · rename_i hge hle hodd
        have htie : (d : ℚ) = 2 * ((n % d : Nat) : ℚ) := by
          have hv : d = 2 * (n % d) := by omega
          exact_mod_cast hv
        have h1 : (((n / d + 1 : Nat)) : ℚ) * d - n = (d : ℚ) - ((n % d : Nat) : ℚ) := by
          push_cast
          rw [hq]; ring
        rw [h1, abs_of_nonneg (by linarith)]
        linarith

theorem log2fuel_le : ∀ (fuel n : Nat), 0 < n → n ≤ fuel → 2 ^ log2fuel fuel n ≤ n := by
  intro fuel
  induction fuel with
  | zero => intro n h1 h2; omega
  | succ f ih =>
    intro n h1 h2
    unfold log2fuel
    split
    · rename_i h2n
      have hrec := ih (n / 2) (by omega) (by omega)
      have hp : 2 ^ (log2fuel f (n / 2) + 1) = 2 * 2 ^ (log2fuel f (n / 2)) := by ring
      rw [hp]
      omega
    · simpa using h1

theorem log2N_le (n : Nat) (h : 0 < n) : 2 ^ log2N n ≤ n :=
  log2fuel_le n n h (Nat.le_refl n)

theorem floorLog2Q_le (n d : Nat) (hd : 0 < d) (hbig : d ≤ n * 2 ^ 64) :
    (2 : ℚ) ^ floorLog2Q n d * d ≤ n := by
  unfold floorLog2Q
  have hN : 1 ≤ n * 2 ^ 64 / d := (Nat.le_div_iff_mul_le hd).mpr (by omega)
  have hlog := log2N_le (n * 2 ^ 64 / d) (by omega)
  have hmul : 2 ^ log2N (n * 2 ^ 64 / d) * d ≤ n * 2 ^ 64 := by
    calc 2 ^ log2N (n * 2 ^ 64 / d) * d ≤ (n * 2 ^ 64 / d) * d := by
          exact Nat.mul_le_mul_right d hlog
      _ ≤ n * 2 ^ 64 := Nat.div_mul_le_self _ _
  have hmulQ : ((2 : ℚ) ^ log2N (n * 2 ^ 64 / d)) * d ≤ (n : ℚ) * 2 ^ 64 := by
    exact_mod_cast hmul
  have h2 : (2 : ℚ) ^ ((log2N (n * 2 ^ 64 / d) : Int) - 64) =
      (2 : ℚ) ^ (log2N (n * 2 ^ 64 / d)) / 2 ^ 64 := by
    rw [zpow_sub₀ (by norm_num : (2 : ℚ) ≠ 0)]
    norm_num [zpow_natCast]
  rw [h2, div_mul_eq_mul_div, div_le_iff₀ (by positivity)]
  linarith

theorem flPosP_close (n d : Nat) (hd : 0 < d) (hbig : d ≤ n * 2 ^ 64) :
    |pairVal (flPosP n d) * d - n| * 2 ^ 53 ≤ n := by
  have hE := floorLog2Q_le n d hd hbig
  have hBpow : (2 : ℚ) ^ (floorLog2Q n d - 52) * 2 ^ 53 = 2 * (2 : ℚ) ^ floorLog2Q n d := by
    have h53 : ((2 : ℚ) ^ (53 : Nat)) = (2 : ℚ) ^ ((53 : Nat) : Int) := by
      rw [zpow_natCast]
    rw [h53, ← zpow_add₀ (by norm_num : (2 : ℚ) ≠ 0)]
    have harg : floorLog2Q n d - 52 + (53 : Nat) = floorLog2Q n d + 1 := by
      push_cast; ring
    rw [harg, zpow_add₀ (by norm_num : (2 : ℚ) ≠ 0), zpow_one]
    ring
  unfold flPosP
  split
  · rename_i hlt
    set e : Int := floorLog2Q n d with he
    have h52 : (0 : Int) ≤ 52 - e := by omega
    have hcast : ((n * 2 ^ (52 - e).toNat : Nat) : ℚ) = (n : ℚ) * (2 : ℚ) ^ ((52 : Int) - e) := by
      push_cast
      rw [← zpow_natCast (2 : ℚ) (52 - e).toNat, Int.toNat_of_nonneg h52]
    have hr := rne_close (n * 2 ^ (52 - e).toNat) d hd
    rw [hcast] at hr
    set M : Nat := rne (n * 2 ^ (52 - e).toNat) d with hM
    have hAB : (2 : ℚ) ^ ((52 : Int) - e) * (2 : ℚ) ^ (e - 52) = 1 := by
      rw [← zpow_add₀ (by norm_num : (2 : ℚ) ≠ 0)]
      norm_num
    have hBpos : (0 : ℚ) < (2 : ℚ) ^ (e - 52) := by positivity
    have hprod : ((M : ℚ) * d - (n : ℚ) * (2 : ℚ) ^ ((52 : Int) - e)) * (2 : ℚ) ^ (e - 52) =
        (M : ℚ) * (2 : ℚ) ^ (e - 52) * d - n := by
      linear_combination (-(n : ℚ)) * hAB
    have hkey : |(M : ℚ) * (2 : ℚ) ^ (e - 52) * d - n| =
        |(M : ℚ) * d - (n : ℚ) * (2 : ℚ) ^ ((52 : Int) - e)| * (2 : ℚ) ^ (e - 52) := by
      rw [← abs_of_pos hBpos, ← abs_mul, hprod, abs_of_pos hBpos]
    show |(M : ℚ) * (2 : ℚ) ^ (e - 52) * d - n| * 2 ^ 53 ≤ n
    rw [hkey]
    calc |(M : ℚ) * d - (n : ℚ) * (2 : ℚ) ^ ((52 : Int) - e)| * (2 : ℚ) ^ (e - 52) * 2 ^ 53
        ≤ (d : ℚ) / 2 * ((2 : ℚ) ^ (e - 52) * 2 ^ 53) := by
          have hhalf : |(M : ℚ) * d - (n : ℚ) * (2 : ℚ) ^ ((52 : Int) - e)| ≤ (d : ℚ) / 2 := by
            linarith
          have := mul_le_mul_of_nonneg_right hhalf
            (le_of_lt (by positivity : (0 : ℚ) < (2 : ℚ) ^ (e - 52) * 2 ^ 53))
          linarith [this]
      _ = (2 : ℚ) ^ e * d := by rw [hBpow]; ring
      _ ≤ n := hE
  · rename_i hge
    set e : Int := floorLog2Q n d with he
    have h52 : (0 : Int) ≤ e - 52 := by omega
    have hDcast : ((d * 2 ^ (e - 52).toNat : Nat) : ℚ) = (d : ℚ) * (2 : ℚ) ^ (e - 52) := by
      push_cast
      rw [← zpow_natCast (2 : ℚ) (e - 52).toNat, Int.toNat_of_nonneg h52]
    have hDpos : 0 < d * 2 ^ (e - 52).toNat := by positivity
    have hr := rne_close n (d * 2 ^ (e - 52).toNat) hDpos
    rw [hDcast] at hr
    set M : Nat := rne n (d * 2 ^ (e - 52).toNat) with hM
    show |(M : ℚ) * (2 : ℚ) ^ (e - 52) * d - n| * 2 ^ 53 ≤ n
    have heq : (M : ℚ) * (2 : ℚ) ^ (e - 52) * d = (M : ℚ) * ((d : ℚ) * (2 : ℚ) ^ (e - 52)) := by
      ring
    rw [heq]
    calc |(M : ℚ) * ((d : ℚ) * (2 : ℚ) ^ (e - 52)) - n| * 2 ^ 53
        ≤ (d : ℚ) * (2 : ℚ) ^ (e - 52) / 2 * 2 ^ 53 := by
          have hhalf : |(M : ℚ) * ((d : ℚ) * (2 : ℚ) ^ (e - 52)) - n| ≤
              (d : ℚ) * (2 : ℚ) ^ (e - 52) / 2 := by linarith
          have h2pos : (0 : ℚ) ≤ (2 : ℚ) ^ (53 : Nat) := by positivity
          exact mul_le_mul_of_nonneg_right hhalf h2pos
      _ = (2 : ℚ) ^ e * d := by
          have : (d : ℚ) * ((2 : ℚ) ^ (e - 52) * 2 ^ 53) / 2 = (d : ℚ) * (2 : ℚ) ^ e := by
            rw [hBpow]; ring
          calc (d : ℚ) * (2 : ℚ) ^ (e - 52) / 2 * 2 ^ 53
              = (d : ℚ) * ((2 : ℚ) ^ (e - 52) * 2 ^ 53) / 2 := by ring
            _ = (d : ℚ) * (2 : ℚ) ^ e := this
            _ = (2 : ℚ) ^ e * d := by ring
      _ ≤ n := hE

theorem flPosP_ge (n d : Nat) (hd : 0 < d) (hbig : d ≤ n * 2 ^ 64) :
    (n : ℚ) * (2 ^ 53 - 1) ≤ pairVal (flPosP n d) * d * 2 ^ 53 := by
  have h := flPosP_close n d hd hbig
  have h1 : -((n : ℚ)) ≤ (pairVal (flPosP n d) * (d : ℚ) - (n : ℚ)) * (2 : ℚ) ^ 53 := by
    have h2 : |(pairVal (flPosP n d) * (d : ℚ) - (n : ℚ)) * (2 : ℚ) ^ 53| ≤ (n : ℚ) := by
      rw [abs_mul, abs_of_nonneg (by positivity : (0:ℚ) ≤ (2:ℚ) ^ 53)]
      exact h
    linarith [(abs_le.mp h2).1]
  nlinarith [h1]

theorem pairVal_pos (n d : Nat) (hn : 0 < n) (hd : 0 < d) (hbig : d ≤ n * 2 ^ 64) :
    0 < pairVal (flPosP n d) := by
  have h := flPosP_ge n d hd hbig
  have hn' : (0 : ℚ) < n := by exact_mod_cast hn
  have hd' : (0 : ℚ) < d := by exact_mod_cast hd
  nlinarith [h]

theorem mantissa_pos (p : Nat × Int) (h : 0 < pairVal p) : 0 < p.1 := by
  rcases Nat.eq_zero_or_pos p.1 with h0 | h1
  · exfalso
    unfold pairVal at h
    rw [h0] at h
    simp at h
  · exact h1

theorem flTimes100_ge (p : Nat × Int) (hp : (1 : ℚ) / 2 ≤ pairVal p) :
    100 * pairVal p * (2 ^ 53 - 1) ≤ pairVal (flTimes100 p) * 2 ^ 53 := by
  have hm : 0 < p.1 := mantissa_pos p (by linarith)
  unfold flTimes100
  split
  · rename_i hneg
    -- p.2 < 0 : input to the second rounding is (100 * p.1) / 2 ^ (-p.2).toNat
    have hd2 : (0 : Nat) < 2 ^ (-p.2).toNat := Nat.pos_pow_of_pos _ (by omega)
    have hd2Q : ((2 ^ (-p.2).toNat : Nat) : ℚ) = (2 : ℚ) ^ (-p.2 : Int) := by
      push_cast
      rw [← zpow_natCast (2 : ℚ) (-p.2).toNat, Int.toNat_of_nonneg (by omega)]
    have hcancel : (2 : ℚ) ^ (p.2 : Int) * (2 : ℚ) ^ (-p.2 : Int) = 1 := by
      rw [← zpow_add₀ (by norm_num : (2 : ℚ) ≠ 0)]
      norm_num
    have hval : ((100 * p.1 : Nat) : ℚ) = 100 * pairVal p * ((2 ^ (-p.2).toNat : Nat) : ℚ) := by
      rw [hd2Q]
      unfold pairVal
      push_cast
      linear_combination (-(100 * (p.1 : ℚ))) * hcancel
    -- d2 ≤ n2 * 2 ^ 64 from pairVal p ≥ 1 / 2
    have hmono : ((2 ^ (-p.2).toNat : Nat) : ℚ) ≤ 2 * p.1 := by
      have := mul_le_mul_of_nonneg_right hp
        (le_of_lt (by positivity : (0 : ℚ) < (2 : ℚ) ^ (-p.2 : Int)))
      unfold pairVal at this
      rw [hd2Q]
      calc ((2 : ℚ) ^ (-p.2 : Int)) = 2 * (1 / 2 * (2 : ℚ) ^ (-p.2 : Int)) := by ring
        _ ≤ 2 * ((p.1 : ℚ) * (2 : ℚ) ^ (p.2 : Int) * (2 : ℚ) ^ (-p.2 : Int)) := by linarith
        _ = 2 * p.1 * ((2 : ℚ) ^ (p.2 : Int) * (2 : ℚ) ^ (-p.2 : Int)) := by ring
        _ = 2 * p.1 := by rw [hcancel]; ring
    have hbig2 : 2 ^ (-p.2).toNat ≤ 100 * p.1 * 2 ^ 64 := by
      have hNat : (2 ^ (-p.2).toNat : Nat) ≤ 2 * p.1 := by exact_mod_cast hmono
      calc (2 ^ (-p.2).toNat : Nat) ≤ 2 * p.1 := hNat
        _ ≤ 100 * p.1 * 2 ^ 64 := by nlinarith [hm]
    have hfg := flPosP_ge (100 * p.1) (2 ^ (-p.2).toNat) hd2 hbig2
    rw [hval] at hfg
    have hd2pos : (0 : ℚ) < ((2 ^ (-p.2).toNat : Nat) : ℚ) := by
      rw [hd2Q]; positivity
    nlinarith [hfg, hd2pos]
  · rename_i hpos
    -- p.2 ≥ 0 : input is the integer 100 * p.1 * 2 ^ p.2.toNat
    have hval : ((100 * p.1 * 2 ^ p.2.toNat : Nat) : ℚ) = 100 * pairVal p := by
      unfold pairVal
      push_cast
      rw [← zpow_natCast (2 : ℚ) p.2.toNat, Int.toNat_of_nonneg (by omega)]
      ring
    have hn2 : 0 < 100 * p.1 * 2 ^ p.2.toNat := by positivity
    have hbig2 : 1 ≤ 100 * p.1 * 2 ^ p.2.toNat * 2 ^ 64 := by
      have hpos2 : 0 < 100 * p.1 * 2 ^ p.2.toNat * 2 ^ 64 := by positivity
      omega
    have hfg := flPosP_ge (100 * p.1 * 2 ^ p.2.toNat) 1 (by norm_num) hbig2
    rw [hval] at hfg
    push_cast at hfg
    nlinarith [hfg]

theorem truncPair_ge (p : Nat × Int) (h : (100 : ℚ) ≤ pairVal p) : 100 ≤ truncPair p := by
  unfold truncPair
  split
  · rename_i hneg
    have hd2Q : ((2 ^ (-p.2).toNat : Nat) : ℚ) = (2 : ℚ) ^ (-p.2 : Int) := by
      push_cast
      rw [← zpow_natCast (2 : ℚ) (-p.2).toNat, Int.toNat_of_nonneg (by omega)]
    have hcancel : (2 : ℚ) ^ (p.2 : Int) * (2 : ℚ) ^ (-p.2 : Int) = 1 := by
      rw [← zpow_add₀ (by norm_num : (2 : ℚ) ≠ 0)]
      norm_num
    have hQ : (100 : ℚ) * ((2 ^ (-p.2).toNat : Nat) : ℚ) ≤ p.1 := by
      have := mul_le_mul_of_nonneg_right h
        (le_of_lt (by positivity : (0 : ℚ) < (2 : ℚ) ^ (-p.2 : Int)))
      unfold pairVal at this
      rw [hd2Q]
      calc (100 : ℚ) * (2 : ℚ) ^ (-p.2 : Int)
          ≤ (p.1 : ℚ) * (2 : ℚ) ^ (p.2 : Int) * (2 : ℚ) ^ (-p.2 : Int) := this
        _ = (p.1 : ℚ) * ((2 : ℚ) ^ (p.2 : Int) * (2 : ℚ) ^ (-p.2 : Int)) := by ring
        _ = p.1 := by rw [hcancel]; ring
    have hNat : 100 * 2 ^ (-p.2).toNat ≤ p.1 := by exact_mod_cast hQ
    exact (Nat.le_div_iff_mul_le (Nat.pos_pow_of_pos _ (by omega))).mpr hNat
  · rename_i hpos
    have hval : ((p.1 * 2 ^ p.2.toNat : Nat) : ℚ) = pairVal p := by
      unfold pairVal
      push_cast
      rw [← zpow_natCast (2 : ℚ) p.2.toNat, Int.toNat_of_nonneg (by omega)]
    have : (100 : ℚ) ≤ ((p.1 * 2 ^ p.2.toNat : Nat) : ℚ) := by rw [hval]; exact h
    exact_mod_cast this

theorem pct_ge_100 (mx rpm : Nat) (h0 : 0 < mx) (hlt : mx < rpm) (hmx : mx ≤ 2 ^ 51) :
    100 ≤ fanPercentDouble mx rpm := by
  unfold fanPercentDouble
  rw [if_pos h0, if_neg (by omega : ¬ rpm = 0)]
  have hbig1 : mx ≤ rpm * 2 ^ 64 := by nlinarith [hlt]
  have hstar := flPosP_ge rpm mx h0 hbig1
  have hmx0 : (0 : ℚ) < mx := by exact_mod_cast h0
  have hrpmQ : (mx : ℚ) + 1 ≤ rpm := by exact_mod_cast hlt
  have hmxQ : (mx : ℚ) ≤ 2 ^ 51 := by exact_mod_cast hmx
  set A := pairVal (flPosP rpm mx) with hA
  have hA12 : (1 : ℚ) / 2 ≤ A := by nlinarith [hstar]
  have hstep2 := flTimes100_ge (flPosP rpm mx) hA12
  set B := pairVal (flTimes100 (flPosP rpm mx)) with hB
  have h100B : (100 : ℚ) ≤ B := by
    have hstar2 : ((mx : ℚ) + 1) * (2 ^ 53 - 1) ≤ A * mx * 2 ^ 53 := by nlinarith [hstar]
    have hkey : (mx : ℚ) * 2 ^ 106 ≤ ((mx : ℚ) + 1) * (2 ^ 53 - 1) ^ 2 := by nlinarith [hmxQ]
    nlinarith [hstep2, hstar2, hkey, hmx0]
  exact truncPair_ge _ h100B

-- ------------------------------------------------------------------
-- Shared concrete values for witnesses and counterexamples
-- ------------------------------------------------------------------

/-- An acquisition environment in which every step succeeds. -/
def envAllOk : InitEnv where
  loadLibraryOk := true
  loadLibraryErrCode := 0
  procLoadOk := true
  procInitOk := true
  procReadOk := true
  procWriteOk := true
  procStatusOk := true
  procDeinitOk := true
  loadWinRing0Ok := true
  initWinRing0Ok := true
  driverStatus := 0

/-- A controller in the Ready state, reached by a successful `initController`
from the constructor state. -/
def readyCtl : FanController := (initController envAllOk defaultFanController).1

/-- An environment in which the wrapper's `LoadWinRing0()` step fails after
the library loaded and all six function pointers resolved. -/
def envLoadFail : InitEnv where
  loadLibraryOk := true
  loadLibraryErrCode := 0
  procLoadOk := true
  procInitOk := true
  procReadOk := true
  procWriteOk := true
  procStatusOk := true
  procDeinitOk := true
  loadWinRing0Ok := false
  initWinRing0Ok := true
  driverStatus := 0

/-- A configuration whose `fan1_curve` has length 0, not 10. -/
def cfgBadSize : FanConfigData := { defaultFanConfigData with fan1_curve := [] }

/-- An EC oracle on which fan 1's RPM registers read back 5201 (`0x1451`)
and everything else reads 0. -/
def memRpm5201 : EcMem := fun a =>
  if a = FAN1_RPM_LSB then 0x51 else if a = FAN1_RPM_MSB then 0x14 else 0

/-- A zero `FanStatusData`, used only as a `getD` default. -/
def statusZero : FanStatusData where
  fan1_speed := 0
  fan2_speed := 0
  fan1_percent := 0
  fan2_percent := 0
  fan1_curve := []
  fan2_curve := []
  acc_time := []
  dec_time := []
  cpu_lower_temp := []
  cpu_upper_temp := []
  gpu_lower_temp := []
  gpu_upper_temp := []
  vrm_lower_temp := []
  vrm_upper_temp := []
  chip_id1 := 0
  chip_id2 := 0
  chip_ver := 0
  fw_ver := 0
  fan1_target_duty := 0
  fan2_target_duty := 0
  fan1_target_curve_val := 0
  fan2_target_curve_val := 0
  fan_cur_point := 0

-- ------------------------------------------------------------------
-- Claim theorems
-- ------------------------------------------------------------------

/-- C2: a single-byte EC read of address `0xC580 + 3` issues exactly three
port-write phase sequences — select index register 0x11 and write the high
address byte, select index register 0x10 and write the low address byte,
select data register 0x12 — followed by exactly one port read, with the
address port fixed at 0x4E and the data port fixed at 0x4F, and the 16-bit
address 0xC583 encoded as high byte 0xC5 and low byte 0x83. -/
theorem ec_read_C583_port_protocol (mem : EcMem) :
    CPU_TEMP + 3 = 0xC583 ∧
    (direct_ec_read mem (CPU_TEMP + 3)).1 =
      [ PortOp.write 0x4E 0x2E, PortOp.write 0x4F 0x11,
        PortOp.write 0x4E 0x2F, PortOp.write 0x4F 0xC5,
        PortOp.write 0x4E 0x2E, PortOp.write 0x4F 0x10,
        PortOp.write 0x4E 0x2F, PortOp.write 0x4F 0x83,
        PortOp.write 0x4E 0x2E, PortOp.write 0x4F 0x12,
        PortOp.write 0x4E 0x2F,
        PortOp.read 0x4F (ecByte mem 0xC583) ] ∧
    ((direct_ec_read mem (CPU_TEMP + 3)).1.filter
      (fun p => match p with | PortOp.write _ _ => true | PortOp.read _ _ => false)).length
      = 11 ∧
    ((direct_ec_read mem (CPU_TEMP + 3)).1.filter
      (fun p => match p with | PortOp.write _ _ => false | PortOp.read _ _ => true)).length
      = 1 := by
  refine ⟨rfl, rfl, rfl, rfl⟩

/-- C3: on a controller whose `winring_init_ok` flag is false (no successful
`initialize`), both `readStatus` and `writeConfig` fail, record the
"not initialized" error, and issue no EC transactions and hence no port
reads or writes. -/
theorem notInitialized_rejects (mem : EcMem) (c : FanController) (cfg : FanConfigData)
    (h : c.winring_init_ok = false) :
    (readStatus mem c).2.2 = none ∧
    (readStatus mem c).2.1 = [] ∧
    portTrace (readStatus mem c).2.1 = [] ∧
    (readStatus mem c).1.lastError = "WinRing0 not initialized, cannot read status." ∧
    (writeConfig mem c cfg).2.2 = false ∧
    (writeConfig mem c cfg).2.1 = [] ∧
    portTrace (writeConfig mem c cfg).2.1 = [] ∧
    (writeConfig mem c cfg).1.lastError = "WinRing0 not initialized, cannot write config." := by
  unfold readStatus writeConfig
  rw [h]
  simp [portTrace]

/-- Witness for C3: the freshly constructed controller. -/
theorem notInitialized_rejects_witness :
    defaultFanController.winring_init_ok = false ∧
    ((readStatus (fun _ => 0) defaultFanController).2.2 = none ∧
     (readStatus (fun _ => 0) defaultFanController).2.1 = [] ∧
     portTrace (readStatus (fun _ => 0) defaultFanController).2.1 = [] ∧
     (readStatus (fun _ => 0) defaultFanController).1.lastError =
       "WinRing0 not initialized, cannot read status." ∧
     (writeConfig (fun _ => 0) defaultFanController defaultFanConfigData).2.2 = false ∧
     (writeConfig (fun _ => 0) defaultFanController defaultFanConfigData).2.1 = [] ∧
     portTrace (writeConfig (fun _ => 0) defaultFanController defaultFanConfigData).2.1 = [] ∧
     (writeConfig (fun _ => 0) defaultFanController defaultFanConfigData).1.lastError =
       "WinRing0 not initialized, cannot write config.") :=
  ⟨rfl, notInitialized_rejects (fun _ => 0) defaultFanController defaultFanConfigData rfl⟩

/-- C9: for a base address and byte sequence that fit in the 16-bit address
space without wrapping, the array write performs one single-byte write
transaction per element, at consecutive addresses `base, base + 1, ...,
base + n - 1` in index order with the corresponding element values; the
empty sequence produces no transactions and no port traffic. -/
theorem write_array_consecutive (base : Nat) (data : List Nat)
    (h : base + data.length ≤ 65536) :
    direct_ec_write_array base data =
      (List.range data.length).map (fun i => EcTx.writeReg (base + i) (data.getD i 0)) ∧
    direct_ec_write_array base [] = [] ∧
    portTrace (direct_ec_write_array base []) = [] := by
  refine ⟨?_, rfl, rfl⟩
  unfold direct_ec_write_array
  split
  · rename_i hnil
    subst hnil
    simp
  · rw [ecWriteArrayFrom_eq]
    apply List.map_congr_left
    intro j hj
    simp only [List.mem_range] at hj
    rw [Nat.zero_add, arrAddr_eq base j (by omega)]

/-- Witness for C9 at base `FAN1_BASE` and sequence `[5, 6, 7]`. -/
theorem write_array_consecutive_witness :
    (0xC540 : Nat) + [5, 6, 7].length ≤ 65536 ∧
    (direct_ec_write_array 0xC540 [5, 6, 7] =
      (List.range [5, 6, 7].length).map
        (fun i => EcTx.writeReg (0xC540 + i) ([5, 6, 7].getD i 0)) ∧
     direct_ec_write_array 0xC540 [] = [] ∧
     portTrace (direct_ec_write_array 0xC540 []) = []) :=
  ⟨by decide, write_array_consecutive 0xC540 [5, 6, 7] (by decide)⟩

/-- C1: on an initialized controller, a configuration in which at least one
of the ten tables has length different from 10 makes `writeConfig` fail with
the invalid-argument error, issuing no EC transactions and hence no port
reads or writes. -/
theorem writeConfig_bad_size_rejected (mem : EcMem) (c : FanController) (cfg : FanConfigData)
    (hinit : c.winring_init_ok = true)
    (hbad : cfg.fan1_curve.length ≠ 10 ∨ cfg.fan2_curve.length ≠ 10 ∨
      cfg.acc_time.length ≠ 10 ∨ cfg.dec_time.length ≠ 10 ∨
      cfg.cpu_lower_temp.length ≠ 10 ∨ cfg.cpu_upper_temp.length ≠ 10 ∨
      cfg.gpu_lower_temp.length ≠ 10 ∨ cfg.gpu_upper_temp.length ≠ 10 ∨
      cfg.vrm_lower_temp.length ≠ 10 ∨ cfg.vrm_upper_temp.length ≠ 10) :
    (writeConfig mem c cfg).2.2 = false ∧
    (writeConfig mem c cfg).2.1 = [] ∧
    portTrace (writeConfig mem c cfg).2.1 = [] ∧
    (writeConfig mem c cfg).1.lastError =
      "Invalid configuration data: All arrays must have size 10." := by
  have hsv : sizesValid cfg = false := by
    cases hs : sizesValid cfg
    · rfl
    · exfalso
      simp only [sizesValid, Bool.and_eq_true, beq_iff_eq] at hs
      obtain ⟨⟨⟨⟨⟨⟨⟨⟨⟨h1, h2⟩, h3⟩, h4⟩, h5⟩, h6⟩, h7⟩, h8⟩, h9⟩, h10⟩ := hs
      rcases hbad with hb | hb | hb | hb | hb | hb | hb | hb | hb | hb <;> simp_all
  unfold writeConfig
  rw [hinit, hsv]
  simp [portTrace]

/-- Witness for C1: the Ready controller and a config whose `fan1_curve`
is empty. -/
theorem writeConfig_bad_size_rejected_witness :
    readyCtl.winring_init_ok = true ∧
    cfgBadSize.fan1_curve.length ≠ 10 ∧
    ((writeConfig (fun _ => 0) readyCtl cfgBadSize).2.2 = false ∧
     (writeConfig (fun _ => 0) readyCtl cfgBadSize).2.1 = [] ∧
     portTrace (writeConfig (fun _ => 0) readyCtl cfgBadSize).2.1 = [] ∧
     (writeConfig (fun _ => 0) readyCtl cfgBadSize).1.lastError =
       "Invalid configuration data: All arrays must have size 10.") :=
  ⟨rfl, by decide,
    writeConfig_bad_size_rejected (fun _ => 0) readyCtl cfgBadSize rfl (Or.inl (by decide))⟩

/-- C10: a default-constructed `FanConfigData` has all ten tables of length
exactly 10, so on an initialized controller `writeConfig` on it passes the
size validation (it returns success, never the invalid-argument failure). -/
theorem writeConfig_default_config_ok (mem : EcMem) (c : FanController)
    (hinit : c.winring_init_ok = true) :
    defaultFanConfigData.fan1_curve.length = 10 ∧
    defaultFanConfigData.fan2_curve.length = 10 ∧
    defaultFanConfigData.acc_time.length = 10 ∧
    defaultFanConfigData.dec_time.length = 10 ∧
    defaultFanConfigData.cpu_lower_temp.length = 10 ∧
    defaultFanConfigData.cpu_upper_temp.length = 10 ∧
    defaultFanConfigData.gpu_lower_temp.length = 10 ∧
    defaultFanConfigData.gpu_upper_temp.length = 10 ∧
    defaultFanConfigData.vrm_lower_temp.length = 10 ∧
    defaultFanConfigData.vrm_upper_temp.length = 10 ∧
    sizesValid defaultFanConfigData = true ∧
    (writeConfig mem c defaultFanConfigData).2.2 = true := by
  refine ⟨by decide, by decide, by decide, by decide, by decide, by decide, by decide,
    by decide, by decide, by decide, by decide, ?_⟩
  unfold writeConfig
  rw [hinit]
  simp [show sizesValid defaultFanConfigData = true from by decide]

/-- Witness for C10 at the Ready controller. -/
theorem writeConfig_default_config_ok_witness :
    readyCtl.winring_init_ok = true ∧
    (defaultFanConfigData.fan1_curve.length = 10 ∧
     defaultFanConfigData.fan2_curve.length = 10 ∧
     defaultFanConfigData.acc_time.length = 10 ∧
     defaultFanConfigData.dec_time.length = 10 ∧
     defaultFanConfigData.cpu_lower_temp.length = 10 ∧
     defaultFanConfigData.cpu_upper_temp.length = 10 ∧
     defaultFanConfigData.gpu_lower_temp.length = 10 ∧
     defaultFanConfigData.gpu_upper_temp.length = 10 ∧
     defaultFanConfigData.vrm_lower_temp.length = 10 ∧
     defaultFanConfigData.vrm_upper_temp.length = 10 ∧
     sizesValid defaultFanConfigData = true ∧
     (writeConfig (fun _ => 0) readyCtl defaultFanConfigData).2.2 = true) :=
  ⟨rfl, writeConfig_default_config_ok (fun _ => 0) readyCtl rfl⟩

/-- C4: on an initialized controller with a valid configuration, when the
breakpoint index read from `FAN_CUR_POINT` is out of range (at least 10),
`writeConfig` still returns success, the four live acc/dec register writes
are skipped (the trace stops after the `FAN_CUR_POINT` read and contains no
write to `FAN1_CUR_ACC`, `FAN1_CUR_DEC`, `FAN2_CUR_ACC` or `FAN2_CUR_DEC`),
and the last-error string holds a warning naming the invalid index. -/
theorem writeConfig_bad_index_warns (mem : EcMem) (c : FanController) (cfg : FanConfigData)
    (hinit : c.winring_init_ok = true) (hval : sizesValid cfg = true)
    (hidx : 10 ≤ ecByte mem FAN_CUR_POINT) :
    (writeConfig mem c cfg).2.2 = true ∧
    (writeConfig mem c cfg).1.lastError =
      "Warning: Invalid DEC_time target index read from EC: " ++
        toString (ecByte mem FAN_CUR_POINT) ∧
    (writeConfig mem c cfg).2.1 =
      wcArrayTxs cfg ++
      [EcTx.readReg FAN1_TARGET_CURVE_VAL (ecByte mem FAN1_TARGET_CURVE_VAL),
       EcTx.writeReg FAN1_TARGET_DUTY (ecByte mem FAN1_TARGET_CURVE_VAL),
       EcTx.readReg FAN2_TARGET_CURVE_VAL (ecByte mem FAN2_TARGET_CURVE_VAL),
       EcTx.writeReg FAN2_TARGET_DUTY (ecByte mem FAN2_TARGET_CURVE_VAL),
       EcTx.readReg FAN_CUR_POINT (ecByte mem FAN_CUR_POINT)] ∧
    ((writeConfig mem c cfg).2.1).all (fun t => !(isCurAccDecWrite t)) = true := by
  have hacc : cfg.acc_time.length = 10 := by
    simp only [sizesValid, Bool.and_eq_true, beq_iff_eq] at hval
    exact hval.1.1.1.1.1.1.1.2
  have hdec : cfg.dec_time.length = 10 := by
    simp only [sizesValid, Bool.and_eq_true, beq_iff_eq] at hval
    exact hval.1.1.1.1.1.1.2
  have haccF : ¬ (ecByte mem FAN_CUR_POINT < cfg.acc_time.length) := by omega
  have hdecF : ¬ (ecByte mem FAN_CUR_POINT < cfg.dec_time.length) := by omega
  have htr : (writeConfig mem c cfg).2.1 =
      wcArrayTxs cfg ++
      [EcTx.readReg FAN1_TARGET_CURVE_VAL (ecByte mem FAN1_TARGET_CURVE_VAL),
       EcTx.writeReg FAN1_TARGET_DUTY (ecByte mem FAN1_TARGET_CURVE_VAL),
       EcTx.readReg FAN2_TARGET_CURVE_VAL (ecByte mem FAN2_TARGET_CURVE_VAL),
       EcTx.writeReg FAN2_TARGET_DUTY (ecByte mem FAN2_TARGET_CURVE_VAL),
       EcTx.readReg FAN_CUR_POINT (ecByte mem FAN_CUR_POINT)] := by
    unfold writeConfig
    rw [hinit, hval]
    simp [haccF, hdecF]
  refine ⟨?_, ?_, htr, ?_⟩
  · unfold writeConfig
    rw [hinit, hval]
    simp
  · unfold writeConfig
    rw [hinit, hval]
    simp [haccF, hdecF]
  · rw [htr, List.all_append]
    rw [wcArrayTxs_no_cur cfg hval]
    simp [isCurAccDecWrite, FAN1_TARGET_DUTY, FAN2_TARGET_DUTY, FAN1_CUR_ACC, FAN1_CUR_DEC,
      FAN2_CUR_ACC, FAN2_CUR_DEC]

/-- Witness for C4: the Ready controller, the default configuration, and an
EC oracle on which every read (including `FAN_CUR_POINT`) returns 200. -/
theorem writeConfig_bad_index_warns_witness :
    readyCtl.winring_init_ok = true ∧
    sizesValid defaultFanConfigData = true ∧
    10 ≤ ecByte (fun _ => 200) FAN_CUR_POINT ∧
    ((writeConfig (fun _ => 200) readyCtl defaultFanConfigData).2.2 = true ∧
     (writeConfig (fun _ => 200) readyCtl defaultFanConfigData).1.lastError =
       "Warning: Invalid DEC_time target index read from EC: " ++
         toString (ecByte (fun _ => 200) FAN_CUR_POINT) ∧
     (writeConfig (fun _ => 200) readyCtl defaultFanConfigData).2.1 =
       wcArrayTxs defaultFanConfigData ++
       [EcTx.readReg FAN1_TARGET_CURVE_VAL (ecByte (fun _ => 200) FAN1_TARGET_CURVE_VAL),
        EcTx.writeReg FAN1_TARGET_DUTY (ecByte (fun _ => 200) FAN1_TARGET_CURVE_VAL),
        EcTx.readReg FAN2_TARGET_CURVE_VAL (ecByte (fun _ => 200) FAN2_TARGET_CURVE_VAL),
        EcTx.writeReg FAN2_TARGET_DUTY (ecByte (fun _ => 200) FAN2_TARGET_CURVE_VAL),
        EcTx.readReg FAN_CUR_POINT (ecByte (fun _ => 200) FAN_CUR_POINT)] ∧
     ((writeConfig (fun _ => 200) readyCtl defaultFanConfigData).2.1).all
       (fun t => !(isCurAccDecWrite t)) = true) :=
  ⟨rfl, by decide, by decide,
    writeConfig_bad_index_warns (fun _ => 200) readyCtl defaultFanConfigData rfl
      (by decide) (by decide)⟩

/-- A string of positive length is not the empty string. -/
theorem ne_empty_of_length_pos (s : String) (h : 0 < s.length) : s ≠ "" := by
  intro he
  rw [he] at h
  exact absurd h (by decide)

/-- A successful non-early-return `initController` call sets the initialized
flag and counts one acquisition attempt. -/
theorem initController_true (env : InitEnv) (c : FanController)
    (hc : c.winring_init_ok = false)
    (h : (initController env c).2.1 = true) :
    (initController env c).1.winring_init_ok = true ∧ (initController env c).2.2 = 1 := by
  unfold initController at h ⊢
  rw [hc] at h ⊢
  simp only [Bool.false_eq_true, if_false] at h ⊢
  split_ifs at h ⊢
  simp_all

/-- C6: when a first `initialize` from the constructor state succeeds, a
second call without an intervening `deinitialize` succeeds immediately; the
two calls together perform exactly one capability acquisition (1 for the
first call, 0 for the second). -/
theorem init_idempotent (env1 env2 : InitEnv)
    (h : (initController env1 defaultFanController).2.1 = true) :
    (initController env1 defaultFanController).2.1 = true ∧
    (initController env2 (initController env1 defaultFanController).1).2.1 = true ∧
    (initController env1 defaultFanController).2.2 = 1 ∧
    (initController env2 (initController env1 defaultFanController).1).2.2 = 0 := by
  obtain ⟨hw, hn⟩ := initController_true env1 defaultFanController rfl h
  have already : ∀ cr : FanController, cr.winring_init_ok = true →
      initController env2 cr = (cr, true, 0) := by
    intro cr hcr
    unfold initController
    rw [hcr]
    simp
  rw [already _ hw]
  exact ⟨h, rfl, hn, rfl⟩

/-- Witness for C6: both calls under the all-success environment. -/
theorem init_idempotent_witness :
    (initController envAllOk defaultFanController).2.1 = true ∧
    ((initController envAllOk defaultFanController).2.1 = true ∧
     (initController envAllOk (initController envAllOk defaultFanController).1).2.1 = true ∧
     (initController envAllOk defaultFanController).2.2 = 1 ∧
     (initController envAllOk (initController envAllOk defaultFanController).1).2.2 = 0) :=
  ⟨rfl, init_idempotent envAllOk envAllOk rfl⟩

/-- C7 counterexample: when `LoadWinRing0()` fails after the library loaded
and all six function pointers resolved, `initialize` returns failure and the
controller is functionally uninitialized — but its internal state is NOT
equal to the pre-init defaults: the resolved function pointers (here,
`pReadPort`) keep their values; only `deinitialize` resets them. -/
theorem init_failure_state_not_default :
    (initController envLoadFail defaultFanController).2.1 = false ∧
    (initController envLoadFail defaultFanController).1.winring_init_ok = false ∧
    (initController envLoadFail defaultFanController).1.hWinRing0Wrapper = false ∧
    (initController envLoadFail defaultFanController).1.pReadPort = true ∧
    defaultFanController.pReadPort = false ∧
    (initController envLoadFail defaultFanController).1 ≠ defaultFanController := by
  refine ⟨rfl, rfl, rfl, rfl, rfl, ?_⟩
  intro h
  have hp := congrArg FanController.pReadPort h
  exact absurd hp (by decide)

/-- C7 (amended): whenever `initialize` fails, it frees the library handle,
records a non-empty error string, and leaves `winring_init_ok = false` with
a null handle (so the controller is functionally Uninitialized and later
`readStatus` / `writeConfig` fail with NotInitialized); however, function
pointers resolved during the failed attempt are not reset to the pre-init
defaults. -/
theorem init_failure_uninitialized (env : InitEnv) (c : FanController)
    (h : (initController env c).2.1 = false) :
    (initController env c).1.winring_init_ok = false ∧
    (initController env c).1.hWinRing0Wrapper = false ∧
    (initController env c).1.lastError ≠ "" := by
  cases hc : c.winring_init_ok
  · unfold initController at h ⊢
    rw [hc] at h ⊢
    simp only [Bool.false_eq_true, if_false] at h ⊢
    split_ifs at h ⊢ with h1 h2 h3 h4 h5
    · refine ⟨rfl, rfl, ?_⟩
      apply ne_empty_of_length_pos
      rw [String.length_append, String.length_append]
      have h0 : 0 < String.length "Could not load winring_wrapper.dll. Error code: " := by
        decide
      omega
    · refine ⟨rfl, rfl, ?_⟩
      show "Could not get one or more function addresses from wrapper DLL." ≠ ""
      decide
    · refine ⟨rfl, rfl, ?_⟩
      show "LoadWinRing0() via wrapper failed." ≠ ""
      decide
    · refine ⟨rfl, rfl, ?_⟩
      apply ne_empty_of_length_pos
      rw [String.length_append]
      have h0 : 0 < String.length "InitWinRing0() via wrapper failed. Status: " := by decide
      omega
    · refine ⟨rfl, rfl, ?_⟩
      apply ne_empty_of_length_pos
      rw [String.length_append]
      have h0 : 0 < String.length "InitWinRing0() via wrapper failed. Status: " := by decide
      omega
  · unfold initController at h
    rw [hc] at h
    simp at h

/-- Witness for C7's amended theorem: failure of the `LoadWinRing0()` step. -/
theorem init_failure_uninitialized_witness :
    (initController envLoadFail defaultFanController).2.1 = false ∧
    ((initController envLoadFail defaultFanController).1.winring_init_ok = false ∧
     (initController envLoadFail defaultFanController).1.hWinRing0Wrapper = false ∧
     (initController envLoadFail defaultFanController).1.lastError ≠ "") :=
  ⟨rfl, init_failure_uninitialized envLoadFail defaultFanController rfl⟩

/-- C8 counterexample: `deinitialize` does not reset the last-error string,
so after a failed `writeConfig` on a Ready controller, `deinitialize` leaves
a controller whose state differs from the pre-init defaults (its `lastError`
is still the recorded error, while the default is empty). -/
theorem deinit_keeps_lastError :
    (deinitController (writeConfig (fun _ => 0) readyCtl cfgBadSize).1).winring_init_ok
      = false ∧
    (deinitController (writeConfig (fun _ => 0) readyCtl cfgBadSize).1).lastError ≠ "" ∧
    defaultFanController.lastError = "" ∧
    deinitController (writeConfig (fun _ => 0) readyCtl cfgBadSize).1
      ≠ defaultFanController := by
  refine ⟨rfl, by decide, rfl, ?_⟩
  intro h
  have hp := congrArg FanController.lastError h
  exact absurd hp (by decide)

/-- C8 (amended): `deinitialize` releases the capability and resets the
capability state — handle, all six function pointers, and the initialized
flag — to the pre-init defaults; it is idempotent and safe to call without a
prior successful `initialize` (on the constructor state it is the identity);
the last-error string, however, is left unchanged rather than reset. -/
theorem deinit_resets_capability_state (c : FanController) :
    (deinitController c).hWinRing0Wrapper = false ∧
    (deinitController c).pLoadWinRing0 = false ∧
    (deinitController c).pInitWinRing0 = false ∧
    (deinitController c).pReadPort = false ∧
    (deinitController c).pWritePort = false ∧
    (deinitController c).pGetStatus = false ∧
    (deinitController c).pDeinitWinRing0 = false ∧
    (deinitController c).winring_init_ok = false ∧
    (deinitController c).lastError = c.lastError ∧
    deinitController (deinitController c) = deinitController c ∧
    deinitController defaultFanController = defaultFanController := by
  cases c
  simp [deinitController, defaultFanController]

/-- C5 counterexample: with fan 1's RPM registers reading back 5201 — one
more than the fan-1 maximum of 5200 — `readStatus` reports percent exactly
100, not a value strictly greater than 100: `(5201 / 5200) * 100` in binary64
is `100.019...`, which the `int` cast truncates to 100. -/
theorem percent_not_above_100_at_5201 :
    (readStatus memRpm5201 readyCtl).2.2.map FanStatusData.fan1_speed = some 5201 ∧
    MAX_FAN1_RPM < 5201 ∧
    (readStatus memRpm5201 readyCtl).2.2.map FanStatusData.fan1_percent = some 100 ∧
    ¬ (100 < 100) := by decide

/-- C5 (amended): the per-fan percent derivation in `readStatus` truncates
the binary64 value `rpm / max_rpm * 100.0` toward zero; RPM 2600 with
maximum 5200 yields percent 50, RPM 0 yields percent 0, and any RPM strictly
greater than the per-fan maximum yields a percent of at least 100 with no
clamping above (RPM 10400 yields 200) — but not always strictly greater than
100 (RPM 5201 yields exactly 100). -/
theorem percent_truncated_double (mem : EcMem) (c : FanController) (st : FanStatusData)
    (hinit : c.winring_init_ok = true)
    (hst : (readStatus mem c).2.2 = some st) :
    st.fan1_percent = fanPercentDouble MAX_FAN1_RPM st.fan1_speed ∧
    st.fan2_percent = fanPercentDouble MAX_FAN2_RPM st.fan2_speed ∧
    fanPercentDouble MAX_FAN1_RPM 2600 = 50 ∧
    fanPercentDouble MAX_FAN1_RPM 0 = 0 ∧
    (MAX_FAN1_RPM < st.fan1_speed → 100 ≤ st.fan1_percent) ∧
    (MAX_FAN2_RPM < st.fan2_speed → 100 ≤ st.fan2_percent) ∧
    fanPercentDouble MAX_FAN1_RPM 10400 = 200 ∧
    fanPercentDouble MAX_FAN1_RPM 5201 = 100 := by
  unfold readStatus at hst
  rw [hinit] at hst
  simp only [Bool.true_eq_false, if_false, Option.some.injEq] at hst
  subst hst
  refine ⟨rfl, rfl, by decide, by decide, ?_, ?_, by decide, by decide⟩
  · intro hlt
    exact pct_ge_100 MAX_FAN1_RPM _ (by decide) hlt (by decide)
  · intro hlt
    exact pct_ge_100 MAX_FAN2_RPM _ (by decide) hlt (by decide)

/-- Witness for C5's amended theorem at the all-zero EC oracle. -/
theorem percent_truncated_double_witness :
    readyCtl.winring_init_ok = true ∧
    (readStatus (fun _ => 0) readyCtl).2.2 =
      some ((readStatus (fun _ => 0) readyCtl).2.2.getD statusZero) ∧
    (((readStatus (fun _ => 0) readyCtl).2.2.getD statusZero).fan1_percent =
       fanPercentDouble MAX_FAN1_RPM
         ((readStatus (fun _ => 0) readyCtl).2.2.getD statusZero).fan1_speed ∧
     ((readStatus (fun _ => 0) readyCtl).2.2.getD statusZero).fan2_percent =
       fanPercentDouble MAX_FAN2_RPM
         ((readStatus (fun _ => 0) readyCtl).2.2.getD statusZero).fan2_speed ∧
     fanPercentDouble MAX_FAN1_RPM 2600 = 50 ∧
     fanPercentDouble MAX_FAN1_RPM 0 = 0 ∧
     (MAX_FAN1_RPM < ((readStatus (fun _ => 0) readyCtl).2.2.getD statusZero).fan1_speed →
       100 ≤ ((readStatus (fun _ => 0) readyCtl).2.2.getD statusZero).fan1_percent) ∧
     (MAX_FAN2_RPM < ((readStatus (fun _ => 0) readyCtl).2.2.getD statusZero).fan2_speed →
       100 ≤ ((readStatus (fun _ => 0) readyCtl).2.2.getD statusZero).fan2_percent) ∧
     fanPercentDouble MAX_FAN1_RPM 10400 = 200 ∧
     fanPercentDouble MAX_FAN1_RPM 5201 = 100) :=
  ⟨rfl, by decide,
    percent_truncated_double (fun _ => 0) readyCtl
      ((readStatus (fun _ => 0) readyCtl).2.2.getD statusZero) rfl (by decide)⟩
